import Mathlib

/-!
Verification of the WhisperXFLOW supervisor and worker protocol.

The definitions below are a shallow embedding of the two Python source
files of the repository:

* `src/__init__.py` — the Blender add-on: the reader loop
  (`read_process_output`), the deferred UI update callbacks
  (`add_to_log`, `update_loaded_model`, `update_transcription_output`,
  `update_status`, `update_ui_state`, `process_ended`), and the
  start/stop operators.
* `src/whisperx_runner.py` — the worker; of it only the command parser
  (`WhisperXCLI.parse_command`) is relevant to the claims.

Python string primitives (`str.strip`, `str.startswith`, `str.endswith`,
`in`, `str.split`, `'\n'.join`, slicing) are modelled by the `py*`
functions on `List Char` / `String` below, following CPython semantics.
-/

namespace WhisperXFlow

/-- Python ASCII whitespace, as stripped by `str.strip()`. -/
def isPyWs (c : Char) : Bool :=
  (c == ' ') || (c == '\t') || (c == '\n') || (c == '\r') ||
  (c == '\x0b') || (c == '\x0c')

/-- Does `pat` occur at the head of `l`?  (`str.startswith` at one position.) -/
def headMatches : List Char → List Char → Bool
  | [], _ => true
  | _ :: _, [] => false
  | p :: ps, c :: cs => (p == c) && headMatches ps cs

/-- Python `sub in s` on char lists: `pat` occurs somewhere in `l`. -/
def containsL (pat : List Char) : List Char → Bool
  | [] => headMatches pat []
  | c :: cs => headMatches pat (c :: cs) || containsL pat cs

/-- Python `s.strip()` on a char list: drop leading and trailing whitespace. -/
def stripL (l : List Char) : List Char :=
  (((l.dropWhile isPyWs).reverse.dropWhile isPyWs)).reverse

/-- Python `s.split('\n')` on a char list: split at every newline,
keeping empty segments (CPython semantics: `"".split('\n') == [""]`). -/
def splitNlL : List Char → List (List Char)
  | [] => [[]]
  | c :: cs =>
    if c == '\n' then [] :: splitNlL cs
    else
      match splitNlL cs with
      | [] => [[c]]
      | h :: t => (c :: h) :: t

/-- Python `'\n'.join(xs)` on char lists. -/
def joinNlL : List (List Char) → List Char
  | [] => []
  | [x] => x
  | x :: y :: t => x ++ '\n' :: joinNlL (y :: t)

/-- Python `s.split(sep)` for a non-empty separator, fuel-bounded
(the fuel is the input length, which always suffices). -/
def splitSubFuelL (sep : List Char) : Nat → List Char → List (List Char)
  | _, [] => [[]]
  | 0, l => [l]
  | n + 1, c :: cs =>
    if sep ≠ [] ∧ headMatches sep (c :: cs) = true then
      [] :: splitSubFuelL sep n (List.drop (sep.length - 1) cs)
    else
      match splitSubFuelL sep n cs with
      | [] => [[c]]
      | h :: t => (c :: h) :: t

/-- Python `s.strip()`. -/
def pyStrip (s : String) : String := String.mk (stripL s.data)

/-- Python `s.startswith(pat)`. -/
def pyStartsWith (pat s : String) : Bool := headMatches pat.data s.data

/-- Python `s.endswith(pat)`. -/
def pyEndsWith (pat s : String) : Bool :=
  headMatches pat.data.reverse s.data.reverse

/-- Python `pat in s`. -/
def pyContains (pat s : String) : Bool := containsL pat.data s.data

/-- Python `s.split(sep)` for a non-empty separator. -/
def pySplitSub (sep s : String) : List String :=
  (splitSubFuelL sep.data s.data.length s.data).map String.mk

/-- Python `'\n'.join(xs)`. -/
def pyJoinNl (xs : List String) : String :=
  String.mk (joinNlL (xs.map String.data))

/-- Python `s[a:-1]`: drop the first `a` characters and the last one. -/
def pyInterior (a : Nat) (s : String) : String :=
  String.mk ((s.data.drop a).dropLast)

/-- A single-quote character, `'`. -/
def qc : Char := Char.ofNat 39

/-- The string `'` (one single quote). -/
def sq : String := String.singleton qc

/-- The 60-character `=` delimiter literal from `read_process_output`. -/
def delim60 : String := String.mk (List.replicate 60 '=')

/-! ## Data model: UI properties and states (`WhisperXProperties`) -/

/-- `STATE_INITIAL = 0`: service not running. -/
def STATE_INITIAL : Nat := 0
/-- `STATE_RUNNING = 1`: service running, no model loaded. -/
def STATE_RUNNING : Nat := 1
/-- `STATE_MODEL_READY = 2`: model loaded. -/
def STATE_MODEL_READY : Nat := 2
/-- `STATE_PROCESSING = 3`: loading a model or transcribing. -/
def STATE_PROCESSING : Nat := 3
/-- `STATE_TRANSCRIBED = 4`: transcription complete. -/
def STATE_TRANSCRIBED : Nat := 4

/-- The UI-visible fields of the `WhisperXProperties` property group that
the supervisor mutates (`last_update_time` and the purely cosmetic fields
are omitted: no claim mentions them). -/
structure WhisperXProperties where
  ui_state : Nat
  process_running : Bool
  status_message : String
  loaded_model : String
  process_log : String
  transcription_output : String
deriving DecidableEq

/-- The property-group defaults declared in `WhisperXProperties`. -/
def initialProps : WhisperXProperties :=
  { ui_state := STATE_INITIAL
    process_running := false
    status_message := "Ready to start"
    loaded_model := "None"
    process_log := ""
    transcription_output := "" }

/-- `add_to_log`'s deferred body: append `line` plus a newline, then, if the
log splits into more than 100 newline-separated segments, keep only the
last 100 (`props.process_log = '\n'.join(lines[-100:])`). -/
def add_to_log (log line : String) : String :=
  let s := log.data ++ line.data ++ ['\n']
  let lines := splitNlL s
  if lines.length > 100 then
    String.mk (joinNlL (lines.drop (lines.length - 100)))
  else String.mk s

/-- One deferred UI update registered with `bpy.app.timers` by the reader
thread.  Each constructor corresponds to one of the `_update` closures in
`src/__init__.py`. -/
inductive Update where
  | addToLog (line : String)
  | updateLoadedModel (name : String)
  | updateTranscriptionOutput (text : String)
  | updateStatus (msg : String)
  | updateUIState (st : Nat)
  | processEnded (exitCode : Option Int)
deriving DecidableEq

/-- Run one deferred update against the property state: the bodies of the
`_update` closures of `add_to_log`, `update_loaded_model`,
`update_transcription_output`, `update_status`, `update_ui_state` and
`process_ended`. -/
def applyUpdate (p : WhisperXProperties) : Update → WhisperXProperties
  | Update.addToLog line => { p with process_log := add_to_log p.process_log line }
  | Update.updateLoadedModel name =>
      { p with loaded_model := name
               status_message := "Model " ++ sq ++ name ++ sq ++ " loaded"
               ui_state := STATE_MODEL_READY }
  | Update.updateTranscriptionOutput text =>
      { p with transcription_output := text
               ui_state := STATE_TRANSCRIBED
               status_message := "Transcription complete" }
  | Update.updateStatus msg => { p with status_message := msg }
  | Update.updateUIState st => { p with ui_state := st }
  | Update.processEnded code =>
      { p with process_running := false
               ui_state := STATE_INITIAL
               loaded_model := "None"
               status_message :=
                 match code with
                 | some c =>
                   if c ≠ 0 then
                     "Service stopped with error (code: " ++ toString c ++ ")"
                   else "Service stopped"
                 | none => "Service stopped"
               process_log := p.process_log ++
                 (match code with
                  | some c =>
                    if c ≠ 0 then
                      "Process exited with error code: " ++ toString c ++ "\n"
                    else "Process ended normally\n"
                  | none => "Process ended normally\n") }

/-- Drain a queue of deferred updates in FIFO order. -/
def applyUpdates (p : WhisperXProperties) (us : List Update) : WhisperXProperties :=
  us.foldl applyUpdate p

/-! ## Reader loop: `read_process_output` -/

/-- The mutable parse context of the reader loop:
`json_capture` / `json_lines` in `read_process_output`. -/
structure ReadCtx where
  json_capture : Bool
  json_lines : List String
deriving DecidableEq

/-- The delimiter / capture section of the per-line body of
`read_process_output` (the `if line.startswith('=' * 60) … elif
json_capture … else add_to_log` chain), acting on the already-stripped
line. -/
def captureStep (ctx : ReadCtx) (line : String) : ReadCtx × List Update :=
  if pyStartsWith delim60 line = true then
    if ctx.json_capture = true then
      (⟨false, []⟩, [Update.updateTranscriptionOutput (pyJoinNl ctx.json_lines)])
    else
      (⟨true, ctx.json_lines⟩, [])
  else if ctx.json_capture = true then
    (⟨true, ctx.json_lines ++ [line]⟩, [])
  else
    (ctx, [Update.addToLog line])

/-- The pattern `Model '([^']+)'` from `re.search`, at the head of `l`:
the literal `Model ` followed by a single quote. -/
def modelPat : List Char := "Model ".data ++ [qc]

/-- `re.search(r"Model '([^']+)'", line)`: scan left to right for the
leftmost position where the full pattern matches (the quoted name must be
non-empty and closed), returning the captured group. -/
def modelScan : List Char → Option (List Char)
  | [] => none
  | c :: cs =>
    if headMatches modelPat (c :: cs) = true then
      let rest := List.drop 7 (c :: cs)
      let interior := rest.takeWhile (fun d => !(d == qc))
      if interior ≠ [] ∧ interior.length < rest.length then some interior
      else modelScan cs
    else modelScan cs

/-- The model-scan section of the per-line body of `read_process_output`:
`if "Model" in line and "loaded" in line: re.search(...)`. -/
def modelUpdates (line : String) : List Update :=
  if pyContains "Model" line = true ∧ pyContains "loaded" line = true then
    match modelScan line.data with
    | some name => [Update.updateLoadedModel (String.mk name)]
    | none => []
  else []

/-- The key-phrase status section of the per-line body of
`read_process_output` (the `if "Error:" in line … elif …` chain). -/
def statusUpdates (line : String) : List Update :=
  if pyContains "Error:" line = true then
    [Update.updateStatus
      ("Error: " ++ pyStrip ((pySplitSub "Error:" line).getD 1 ""))]
  else if pyContains "Starting" line = true ∨ pyContains "Setting up" line = true then
    [Update.updateStatus "Starting service..."]
  else if pyContains "Environment setup complete" line = true then
    [Update.updateStatus "Service running", Update.updateUIState STATE_RUNNING]
  else if pyContains "Transcribing" line = true then
    [Update.updateStatus "Transcribing audio..."]
  else if pyContains "Downloading" line = true ∨ pyContains "Loading model" line = true then
    [Update.updateStatus "Loading model..."]
  else if pyContains "Transcription completed" line = true then
    [Update.updateStatus "Processing transcription..."]
  else []

/-- The whole per-line body of `read_process_output`: strip the raw line,
run the delimiter/capture chain, then — on every line, captured or not —
the model scan and the key-phrase chain.  Returns the new parse context
and the deferred updates registered, in registration order. -/
def processLine (ctx : ReadCtx) (raw : String) : ReadCtx × List Update :=
  let line := pyStrip raw
  let step := captureStep ctx line
  (step.1, step.2 ++ modelUpdates line ++ statusUpdates line)

/-- The reader loop over a finite sequence of raw output lines, from a
given parse context: fold `processLine`, concatenating the registered
updates in order. -/
def read_process_output : ReadCtx → List String → ReadCtx × List Update
  | ctx, [] => (ctx, [])
  | ctx, l :: ls =>
    let step := processLine ctx l
    let rest := read_process_output step.1 ls
    (rest.1, step.2 ++ rest.2)

/-- The texts of the `JsonBlock` emissions (`update_transcription_output`
registrations) within a list of updates. -/
def jsonTexts (us : List Update) : List String :=
  us.filterMap fun u =>
    match u with
    | Update.updateTranscriptionOutput t => some t
    | _ => none

/-- The number of lines of a raw input sequence that the code treats as
JSON delimiters: lines whose stripped form starts with the 60-`=` prefix. -/
def countDelim (lines : List String) : Nat :=
  (lines.map pyStrip).countP (fun l => pyStartsWith delim60 l)

/-! ## Operators: start / stop -/

/-- Blender operator outcome: `{'FINISHED'}` or `{'CANCELLED'}`. -/
inductive OpResult where
  | finished
  | cancelled
deriving DecidableEq

/-- `WHISPERX_OT_start_service.execute`.  External outcomes are passed as
parameters: `scriptFound` — whether a `whisperx_runner.py` path was
resolved; `spawnErr` — `some msg` if `subprocess.Popen` (or anything else
in the `try`) raised.  The already-running guard precedes everything. -/
def start_service_execute (scriptFound : Bool) (spawnErr : Option String)
    (p : WhisperXProperties) : WhisperXProperties × OpResult :=
  if p.process_running = true then (p, OpResult.cancelled)
  else if scriptFound = false then
    ({ p with status_message := "Error: Script not found" }, OpResult.cancelled)
  else
    match spawnErr with
    | some e =>
      ({ p with status_message := "Error starting service: " ++ e }, OpResult.cancelled)
    | none =>
      ({ p with process_running := true
                status_message := "Starting service..."
                process_log := "Initializing WhisperX service...\n"
                ui_state := STATE_PROCESSING }, OpResult.finished)

/-- Outcome of `WHISPERX_OT_stop_service.execute`: the property state
after the synchronous body, the deferred `add_to_log` updates it
registered, the lines written to the worker's stdin, and the operator
result. -/
structure StopOutcome where
  props : WhisperXProperties
  pending : List Update
  sentCommands : List String
  result : OpResult
deriving DecidableEq

/-- `WHISPERX_OT_stop_service.execute`.  The liveness of the worker at
each escalation tier is external and passed as parameters (`procAlive`:
a live process object exists; `graceOk` / `termOk`: the process died
within the graceful / terminate tier).  The not-running guard precedes
everything. -/
def stop_service_execute (procAlive graceOk termOk : Bool)
    (p : WhisperXProperties) : StopOutcome :=
  if p.process_running = false then
    ⟨p, [], [], OpResult.cancelled⟩
  else
    let p1 := { p with process_running := false
                       status_message := "Stopping service..."
                       ui_state := STATE_INITIAL
                       loaded_model := "None" }
    let sent := if procAlive then ["exit()\n"] else []
    let logs :=
      if procAlive then
        "Stopping WhisperX service..." ::
          (if graceOk then ["Service stopped gracefully"]
           else "Terminating process..." ::
             (if termOk then ["Service terminated"]
              else ["Force killing process...", "Service force killed"]))
      else []
    let p2 := { p1 with status_message := "Service stopped"
                        process_log := p1.process_log ++ "=== Service stopped by user ===\n" }
    ⟨p2, logs.map Update.addToLog, sent, OpResult.finished⟩

/-! ## Worker command parser: `WhisperXCLI.parse_command` -/

/-- `WhisperXCLI.parse_command` from `src/whisperx_runner.py`: strip the
input, then match `exit()`, `list-models()`, `load-model(...)`,
`transcribe-audio(...)` in that order; anything else yields `(None, [])`. -/
def parse_command (command : String) : Option String × List String :=
  let c := pyStrip command
  if c = "exit()" then (some "exit", [])
  else if c = "list-models()" then (some "list-models", [])
  else if pyStartsWith "load-model(" c = true ∧ pyEndsWith ")" c = true then
    (some "load-model", [pyStrip (pyInterior 11 c)])
  else if pyStartsWith "transcribe-audio(" c = true ∧ pyEndsWith ")" c = true then
    (some "transcribe-audio", [pyStrip (pyInterior 17 c)])
  else (none, [])

/-! ## JSON well-formedness

Modelled from the spec: the consumer of a completed `JsonBlock`
(`WHISPERX_OT_send_to_nla.execute`) validates the stored text with Python
`json.loads`, which is standard-library code not part of this repository;
`jsonAccepts` below models its acceptance of a text as a well-formed JSON
document (RFC 8259 value grammar with surrounding whitespace).  It is
used only to exhibit concrete texts that `json.loads` rejects. -/

/-- Skip JSON whitespace. -/
def jsonWs : List Char → List Char :=
  List.dropWhile fun c => (c == ' ') || (c == '\t') || (c == '\n') || (c == '\r')

/-- A hexadecimal digit (for `\u` escapes). -/
def isHexDig (c : Char) : Bool :=
  c.isDigit || ('a' ≤ c && c ≤ 'f') || ('A' ≤ c && c ≤ 'F')

/-- Scan a JSON string body after the opening quote; return the input
after the closing quote, or `none` if malformed. -/
def jsonString : List Char → Option (List Char)
  | [] => none
  | c :: rest =>
    if c == '"' then some rest
    else if c == '\\' then
      match rest with
      | [] => none
      | e :: r2 =>
        if (e == '"') || (e == '\\') || (e == '/') || (e == 'b') || (e == 'f') ||
           (e == 'n') || (e == 'r') || (e == 't') then jsonString r2
        else if e == 'u' then
          match r2 with
          | h1 :: h2 :: h3 :: h4 :: r3 =>
            if isHexDig h1 && isHexDig h2 && isHexDig h3 && isHexDig h4 then
              jsonString r3
            else none
          | _ => none
        else none
    else if c.toNat < 32 then none
    else jsonString rest

/-- Scan an optional JSON exponent part; `none` on malformed exponent. -/
def jsonExp (l : List Char) : Option (List Char) :=
  match l with
  | c :: r =>
    if (c == 'e') || (c == 'E') then
      let r1 := match r with
                | s :: r2 => if (s == '+') || (s == '-') then r2 else r
                | [] => r
      match r1 with
      | d :: r3 => if d.isDigit then some (r3.dropWhile Char.isDigit) else none
      | [] => none
    else some l
  | [] => some l

/-- Scan an optional JSON fraction part followed by an exponent. -/
def jsonFrac (l : List Char) : Option (List Char) :=
  match l with
  | '.' :: r =>
    (match r with
     | d :: r2 => if d.isDigit then jsonExp (r2.dropWhile Char.isDigit) else none
     | [] => none)
  | _ => jsonExp l

/-- Scan a JSON number from its first character. -/
def jsonNumber (l : List Char) : Option (List Char) :=
  let l1 := match l with
            | '-' :: r => r
            | _ => l
  match l1 with
  | c :: rest =>
    if c == '0' then jsonFrac rest
    else if c.isDigit then jsonFrac (rest.dropWhile Char.isDigit)
    else none
  | [] => none

/-- Nesting frame of the JSON acceptor: inside an array or an object. -/
inductive JFrame where
  | arr
  | obj
deriving DecidableEq

/-- The fuel-bounded acceptor loop.  `expectVal = true`: a value is
expected at the head of the input; `false`: a value was just read and a
separator or a closer (or, with an empty stack, the end) must follow. -/
def jsonLoop : Nat → Bool → List Char → List JFrame → Bool
  | 0, _, _, _ => false
  | fuel + 1, true, l, stack =>
    (match jsonWs l with
     | '"' :: rest =>
       (match jsonString rest with
        | some r => jsonLoop fuel false r stack
        | none => false)
     | '{' :: rest =>
       (match jsonWs rest with
        | '}' :: r2 => jsonLoop fuel false r2 stack
        | '"' :: r2 =>
          (match jsonString r2 with
           | some r3 =>
             (match jsonWs r3 with
              | ':' :: r4 => jsonLoop fuel true r4 (JFrame.obj :: stack)
              | _ => false)
           | none => false)
        | _ => false)
     | '[' :: rest =>
       (match jsonWs rest with
        | ']' :: r2 => jsonLoop fuel false r2 stack
        | _ => jsonLoop fuel true rest (JFrame.arr :: stack))
     | 't' :: 'r' :: 'u' :: 'e' :: rest => jsonLoop fuel false rest stack
     | 'f' :: 'a' :: 'l' :: 's' :: 'e' :: rest => jsonLoop fuel false rest stack
     | 'n' :: 'u' :: 'l' :: 'l' :: rest => jsonLoop fuel false rest stack
     | c :: rest =>
       if (c == '-') || c.isDigit then
         match jsonNumber (c :: rest) with
         | some r => jsonLoop fuel false r stack
         | none => false
       else false
     | [] => false)
  | fuel + 1, false, l, stack =>
    (match stack with
     | [] => (jsonWs l).isEmpty
     | JFrame.arr :: stk =>
       (match jsonWs l with
        | ',' :: rest => jsonLoop fuel true rest (JFrame.arr :: stk)
        | ']' :: rest => jsonLoop fuel false rest stk
        | _ => false)
     | JFrame.obj :: stk =>
       (match jsonWs l with
        | ',' :: rest =>
          (match jsonWs rest with
           | '"' :: r2 =>
             (match jsonString r2 with
              | some r3 =>
                (match jsonWs r3 with
                 | ':' :: r4 => jsonLoop fuel true r4 (JFrame.obj :: stk)
                 | _ => false)
              | none => false)
           | _ => false)
        | '}' :: rest => jsonLoop fuel false rest stk
        | _ => false))

/-- Modelled from the spec: acceptance of a text by the consumer-side
JSON parse (`json.loads` in `WHISPERX_OT_send_to_nla.execute`). -/
def jsonAccepts (s : String) : Bool :=
  jsonLoop (2 * s.data.length + 2) true s.data []

/-! ## Helper lemmas -/

theorem String.mk_data_eq (s : String) : String.mk s.data = s := rfl

theorem headMatches_head {p c : Char} {ps cs : List Char}
    (h : headMatches (p :: ps) (c :: cs) = true) : p = c := by
  simp only [headMatches, Bool.and_eq_true, beq_iff_eq] at h
  exact h.1

theorem containsL_head_mem {p : Char} {ps : List Char} :
    ∀ {l : List Char}, containsL (p :: ps) l = true → p ∈ l := by
  intro l
  induction l with
  | nil => intro h; simp [containsL, headMatches] at h
  | cons c cs ih =>
    intro h
    simp only [containsL, Bool.or_eq_true] at h
    rcases h with h | h
    · exact (headMatches_head h) ▸ List.mem_cons_self c cs
    · exact List.mem_cons_of_mem _ (ih h)

theorem pyContains_eq_false {needle : String} {c0 : Char}
    (h0 : needle.data.head? = some c0) {line : String}
    (hn : c0 ∉ line.data) : pyContains needle line = false := by
  cases hq : pyContains needle line with
  | false => rfl
  | true =>
    exfalso
    cases hd : needle.data with
    | nil => rw [hd] at h0; cases h0
    | cons a as =>
      rw [hd] at h0
      simp only [List.head?, Option.some.injEq] at h0
      unfold pyContains at hq
      rw [hd] at hq
      exact hn (h0 ▸ containsL_head_mem hq)

theorem pyStartsWith_eq_false {pat line : String} {p c : Char}
    (hp : pat.data.head? = some p) (hc : line.data.head? = some c)
    (hne : p ≠ c) : pyStartsWith pat line = false := by
  cases hd : pat.data with
  | nil => rw [hd] at hp; cases hp
  | cons a as =>
    cases he : line.data with
    | nil => rw [he] at hc; cases hc
    | cons b bs =>
      rw [hd] at hp; rw [he] at hc
      simp only [List.head?, Option.some.injEq] at hp hc
      unfold pyStartsWith
      rw [hd, he]
      simp only [headMatches, Bool.and_eq_false_iff]
      left
      simp [beq_iff_eq]
      intro hab
      exact hne (hp ▸ hc ▸ hab)

theorem isPyWs_eq_false_of_isDigit {c : Char} (h : c.isDigit = true) :
    isPyWs c = false := by
  cases hw : isPyWs c with
  | false => rfl
  | true =>
    exfalso
    simp only [isPyWs, Bool.or_eq_true, beq_iff_eq] at hw
    rcases hw with ((((rfl | rfl) | rfl) | rfl) | rfl) | rfl <;>
      exact absurd h (by decide)

theorem dropWhile_eq_self_of_false {p : Char → Bool} {l : List Char}
    (h : ∀ c ∈ l, p c = false) : l.dropWhile p = l := by
  cases l with
  | nil => rfl
  | cons a t =>
    rw [List.dropWhile_cons]
    simp [h a (List.mem_cons_self _ _)]

theorem stripL_eq_self {l : List Char} (h : ∀ c ∈ l, isPyWs c = false) :
    stripL l = l := by
  unfold stripL
  rw [dropWhile_eq_self_of_false h,
      dropWhile_eq_self_of_false (fun c hc => h c (List.mem_reverse.mp hc)),
      List.reverse_reverse]

theorem pyStrip_eq_self {s : String} (h : ∀ c ∈ s.data, isPyWs c = false) :
    pyStrip s = s := by
  unfold pyStrip
  rw [stripL_eq_self h]

theorem statusUpdates_eq_nil {line : String}
    (h1 : pyContains "Error:" line = false)
    (h2 : pyContains "Starting" line = false)
    (h3 : pyContains "Setting up" line = false)
    (h4 : pyContains "Environment setup complete" line = false)
    (h5 : pyContains "Transcribing" line = false)
    (h6 : pyContains "Downloading" line = false)
    (h7 : pyContains "Loading model" line = false)
    (h8 : pyContains "Transcription completed" line = false) :
    statusUpdates line = [] := by
  simp [statusUpdates, h1, h2, h3, h4, h5, h6, h7, h8]

theorem modelUpdates_eq_nil {line : String}
    (h : pyContains "Model" line = false) : modelUpdates line = [] := by
  simp [modelUpdates, h]

theorem processLine_capture (ctx : ReadCtx) (raw : String) :
    (processLine ctx raw).1.json_capture =
      if pyStartsWith delim60 (pyStrip raw) = true then !ctx.json_capture
      else ctx.json_capture := by
  unfold processLine captureStep
  cases h : pyStartsWith delim60 (pyStrip raw) <;>
    cases hc : ctx.json_capture <;> simp [h, hc]

theorem processLine_plain (ctx : ReadCtx) (raw : String)
    (h : ctx.json_capture = false)
    (hd : pyStartsWith delim60 (pyStrip raw) = false) :
    processLine ctx raw =
      (ctx, [Update.addToLog (pyStrip raw)] ++ modelUpdates (pyStrip raw) ++
        statusUpdates (pyStrip raw)) := by
  simp [processLine, captureStep, h, hd]

/-! ## Claim C1 -/

/-- C1 (counterexample): a `ModelLoaded` event observed while the UI
state is `STATE_RUNNING` — a state with no outgoing `ModelLoaded` edge in
the transition table — does change the state: feeding the line
`Model 'tiny' loaded` to the reader loop while in `STATE_RUNNING` yields
`STATE_MODEL_READY`, so the claimed no-op behaviour is false. -/
theorem c1_counterexample :
    (applyUpdates { initialProps with ui_state := STATE_RUNNING, process_running := true }
        (processLine ⟨false, []⟩ ("Model " ++ sq ++ "tiny" ++ sq ++ " loaded")).2).ui_state
      = STATE_MODEL_READY ∧ STATE_MODEL_READY ≠ STATE_RUNNING := by
  decide

/-- C1 (amended): the UI-state transitions are applied unconditionally —
the deferred update for a `ModelLoaded` observation always sets
`STATE_MODEL_READY`, a completed JSON block always sets
`STATE_TRANSCRIBED`, an explicit state update always sets its argument,
and a process end always sets `STATE_INITIAL`, each regardless of the
current state; status-only updates and plain log lines never change the
state. -/
theorem c1_state_updates_unconditional (p : WhisperXProperties)
    (name text msg line : String) (st : Nat) (code : Option Int) :
    (applyUpdate p (Update.updateLoadedModel name)).ui_state = STATE_MODEL_READY ∧
    (applyUpdate p (Update.updateTranscriptionOutput text)).ui_state = STATE_TRANSCRIBED ∧
    (applyUpdate p (Update.updateUIState st)).ui_state = st ∧
    (applyUpdate p (Update.processEnded code)).ui_state = STATE_INITIAL ∧
    (applyUpdate p (Update.updateStatus msg)).ui_state = p.ui_state ∧
    (applyUpdate p (Update.addToLog line)).ui_state = p.ui_state :=
  ⟨rfl, rfl, rfl, rfl, rfl, rfl⟩

/-! ## Claim C2 -/

/-- C2 (counterexample): a line consumed while JSON capture mode is on is
not only appended to the buffer — the key-phrase scan still runs on it:
the captured line `Error: boom` additionally registers a status update. -/
theorem c2_counterexample :
    processLine ⟨true, []⟩ "Error: boom" =
      (⟨true, ["Error: boom"]⟩, [Update.updateStatus "Error: boom"]) := by
  decide

/-- C2 (amended): while capturing, a non-delimiter line is appended to
the JSON buffer and produces no log entry from the capture chain, but the
model-name scan and the key-phrase status scan still run on it and their
updates are still emitted. -/
theorem c2_capture_appends_but_still_scans (ctx : ReadCtx) (line : String)
    (h1 : ctx.json_capture = true)
    (h2 : pyStartsWith delim60 (pyStrip line) = false) :
    processLine ctx line =
      (⟨true, ctx.json_lines ++ [pyStrip line]⟩,
       modelUpdates (pyStrip line) ++ statusUpdates (pyStrip line)) := by
  simp [processLine, captureStep, h1, h2]

/-- C2 witness: the amended theorem applied to the concrete capture
context with buffer `[]` and the line `x`. -/
theorem c2_witness :
    (⟨true, []⟩ : ReadCtx).json_capture = true ∧
    pyStartsWith delim60 (pyStrip "x") = false ∧
    processLine ⟨true, []⟩ "x" =
      (⟨true, [] ++ [pyStrip "x"]⟩,
       modelUpdates (pyStrip "x") ++ statusUpdates (pyStrip "x")) :=
  ⟨rfl, by decide, c2_capture_appends_but_still_scans ⟨true, []⟩ "x" rfl (by decide)⟩

/-! ## Claim C6 -/

/-- C6 (counterexample): a stripped line of 61 `=` characters is not
equal to the 60-character delimiter, yet it toggles JSON capture mode on
(the code tests `startswith`, not equality). -/
theorem c6_counterexample :
    (processLine ⟨false, []⟩ (String.mk (List.replicate 61 '='))).1.json_capture = true ∧
    String.mk (List.replicate 61 '=') ≠ delim60 := by
  decide

/-- C6 (amended): a line toggles JSON capture mode if and only if its
stripped form *starts with* the 60-character `=` delimiter; in
particular a line that begins with 60 `=` characters and continues with
further characters still toggles capture. -/
theorem c6_toggle_iff_startswith (ctx : ReadCtx) (line : String) :
    (processLine ctx line).1.json_capture ≠ ctx.json_capture ↔
      pyStartsWith delim60 (pyStrip line) = true := by
  rw [processLine_capture]
  cases h : pyStartsWith delim60 (pyStrip line) <;>
    cases hc : ctx.json_capture <;> simp [h]

/-- C6 witness: the amended theorem applied to the delimiter line itself
from the non-capturing context. -/
theorem c6_witness :
    (processLine ⟨false, []⟩ delim60).1.json_capture ≠ false :=
  (c6_toggle_iff_startswith ⟨false, []⟩ delim60).mpr (by decide)

/-! ## Claim C8 -/

/-- C8: a start request issued while `process_running` is already true is
rejected (`{'CANCELLED'}`) with no state change, whatever the external
conditions; and of two consecutive start calls from a non-running state,
the first succeeds and the second is rejected rather than queued. -/
theorem c8_second_start_rejected (p : WhisperXProperties)
    (sf1 sf2 : Bool) (se1 se2 : Option String) :
    (p.process_running = true →
      start_service_execute sf1 se1 p = (p, OpResult.cancelled)) ∧
    (p.process_running = false →
      (start_service_execute true none p).2 = OpResult.finished ∧
      (start_service_execute true none p).1.process_running = true ∧
      start_service_execute sf2 se2 (start_service_execute true none p).1 =
        ((start_service_execute true none p).1, OpResult.cancelled)) := by
  constructor
  · intro h
    simp [start_service_execute, h]
  · intro h
    simp [start_service_execute, h]

/-- C8 witness: both parts of the theorem at the default property state
(and at the same state marked running for the first part). -/
theorem c8_witness :
    ({ initialProps with process_running := true } : WhisperXProperties).process_running = true ∧
    initialProps.process_running = false ∧
    start_service_execute true none { initialProps with process_running := true } =
      ({ initialProps with process_running := true }, OpResult.cancelled) ∧
    (start_service_execute true none initialProps).2 = OpResult.finished ∧
    start_service_execute true none (start_service_execute true none initialProps).1 =
      ((start_service_execute true none initialProps).1, OpResult.cancelled) :=
  ⟨rfl, rfl,
   (c8_second_start_rejected { initialProps with process_running := true } true true none none).1 rfl,
   ((c8_second_start_rejected initialProps true true none none).2 rfl).1,
   ((c8_second_start_rejected initialProps true true none none).2 rfl).2.2⟩

/-! ## Claim C9 -/

/-- C9: a stop request while no service is running is a no-op: the
property state (UI state, loaded model, log, all fields) is returned
unchanged, no deferred log update is registered, nothing is written to
any process, and the operator reports `{'CANCELLED'}` without raising. -/
theorem c9_stop_idempotent (p : WhisperXProperties)
    (procAlive graceOk termOk : Bool) (h : p.process_running = false) :
    stop_service_execute procAlive graceOk termOk p =
      ⟨p, [], [], OpResult.cancelled⟩ := by
  simp [stop_service_execute, h]

/-- C9 witness: the theorem at the default (not running) property state. -/
theorem c9_witness :
    stop_service_execute true true true initialProps =
      ⟨initialProps, [], [], OpResult.cancelled⟩ :=
  c9_stop_idempotent initialProps true true true rfl

/-! ## Claim C7 -/

/-- C7 (counterexample): the line `progress=50`, consumed while not
capturing, registers exactly one deferred update — the plain log append —
and in particular no status update: applying the resulting updates to the
default property state leaves `status_message` untouched, so no progress
value is ever surfaced as status text. -/
theorem c7_counterexample :
    processLine ⟨false, []⟩ "progress=50" =
      (⟨false, []⟩, [Update.addToLog "progress=50"]) ∧
    (applyUpdates initialProps (processLine ⟨false, []⟩ "progress=50").2).status_message =
      initialProps.status_message := by
  decide

/-- C7 (amended): a line of the form `progress=<digits>` receives no
special handling from the reader loop: while not capturing it is appended
to the log like any other unrecognised line, and no other update (in
particular no status update) results from it. -/
theorem c7_progress_line_only_logged (ctx : ReadCtx)
    (h : ctx.json_capture = false) (ds : List Char) (hne : ds ≠ [])
    (hds : ∀ c ∈ ds, c.isDigit = true) :
    processLine ctx (String.mk ("progress=".data ++ ds)) =
      (ctx, [Update.addToLog (String.mk ("progress=".data ++ ds))]) := by
  have hmem : ∀ c ∈ ("progress=".data ++ ds), isPyWs c = false := by
    intro c hc
    rcases List.mem_append.mp hc with h' | h'
    · exact (by decide : ∀ c ∈ "progress=".data, isPyWs c = false) c h'
    · exact isPyWs_eq_false_of_isDigit (hds c h')
  have hstrip : pyStrip (String.mk ("progress=".data ++ ds)) =
      String.mk ("progress=".data ++ ds) := pyStrip_eq_self hmem
  have hdelim : pyStartsWith delim60 (String.mk ("progress=".data ++ ds)) = false := by
    refine pyStartsWith_eq_false (p := '=') (c := 'p') (by decide) ?_ (by decide)
    rfl
  have hkw : ∀ (needle : String) (k : Char), needle.data.head? = some k →
      k ∉ "progress=".data → k.isDigit = false →
      pyContains needle (String.mk ("progress=".data ++ ds)) = false := by
    intro needle k h0 hk1 hk2
    refine pyContains_eq_false h0 ?_
    intro hm
    rcases List.mem_append.mp hm with h' | h'
    · exact hk1 h'
    · rw [hds k h'] at hk2; cases hk2
  have hM := hkw "Model" 'M' (by decide) (by decide) (by decide)
  have h1 := hkw "Error:" 'E' (by decide) (by decide) (by decide)
  have h2 := hkw "Starting" 'S' (by decide) (by decide) (by decide)
  have h3 := hkw "Setting up" 'S' (by decide) (by decide) (by decide)
  have h4 := hkw "Environment setup complete" 'E' (by decide) (by decide) (by decide)
  have h5 := hkw "Transcribing" 'T' (by decide) (by decide) (by decide)
  have h6 := hkw "Downloading" 'D' (by decide) (by decide) (by decide)
  have h7 := hkw "Loading model" 'L' (by decide) (by decide) (by decide)
  have h8 := hkw "Transcription completed" 'T' (by decide) (by decide) (by decide)
  have hd2 : pyStartsWith delim60
      (pyStrip (String.mk ("progress=".data ++ ds))) = false := by
    rw [hstrip]; exact hdelim
  rw [processLine_plain ctx _ h hd2, hstrip, modelUpdates_eq_nil hM,
      statusUpdates_eq_nil h1 h2 h3 h4 h5 h6 h7 h8]
  simp

/-- C7 witness: the amended theorem at the digit list `['5','0']`, i.e.
the concrete line `progress=50`. -/
theorem c7_witness :
    (⟨false, []⟩ : ReadCtx).json_capture = false ∧
    (['5', '0'] : List Char) ≠ [] ∧
    (∀ c ∈ (['5', '0'] : List Char), c.isDigit = true) ∧
    processLine ⟨false, []⟩ (String.mk ("progress=".data ++ ['5', '0'])) =
      (⟨false, []⟩, [Update.addToLog (String.mk ("progress=".data ++ ['5', '0']))]) :=
  ⟨rfl, by decide, by decide,
   c7_progress_line_only_logged ⟨false, []⟩ rfl ['5', '0'] (by decide) (by decide)⟩

/-! ## Claim C3 -/

theorem jsonTexts_append (a b : List Update) :
    jsonTexts (a ++ b) = jsonTexts a ++ jsonTexts b := by
  simp [jsonTexts, List.filterMap_append]

theorem jsonTexts_modelUpdates (line : String) :
    jsonTexts (modelUpdates line) = [] := by
  unfold modelUpdates
  split
  · split <;> simp [jsonTexts]
  · simp [jsonTexts]

theorem jsonTexts_statusUpdates (line : String) :
    jsonTexts (statusUpdates line) = [] := by
  unfold statusUpdates
  repeat' split
  all_goals simp [jsonTexts]

theorem processLine_jsonTexts (ctx : ReadCtx) (raw : String) :
    jsonTexts (processLine ctx raw).2 =
      if pyStartsWith delim60 (pyStrip raw) = true ∧ ctx.json_capture = true
      then [pyJoinNl ctx.json_lines] else [] := by
  have hcap : jsonTexts (captureStep ctx (pyStrip raw)).2 =
      if pyStartsWith delim60 (pyStrip raw) = true ∧ ctx.json_capture = true
      then [pyJoinNl ctx.json_lines] else [] := by
    unfold captureStep
    cases h : pyStartsWith delim60 (pyStrip raw) <;>
      cases hc : ctx.json_capture <;> simp [h, hc, jsonTexts]
  show jsonTexts ((captureStep ctx (pyStrip raw)).2 ++
      modelUpdates (pyStrip raw) ++ statusUpdates (pyStrip raw)) = _
  rw [jsonTexts_append, jsonTexts_append, hcap, jsonTexts_modelUpdates,
      jsonTexts_statusUpdates]
  simp

theorem read_process_output_count (lines : List String) : ∀ ctx : ReadCtx,
    (jsonTexts (read_process_output ctx lines).2).length =
      (countDelim lines + (if ctx.json_capture = true then 1 else 0)) / 2 := by
  induction lines with
  | nil =>
    intro ctx
    cases hc : ctx.json_capture <;>
      simp [read_process_output, jsonTexts, countDelim, hc]
  | cons l ls ih =>
    intro ctx
    have hcd : countDelim (l :: ls) =
        (if pyStartsWith delim60 (pyStrip l) = true then 1 else 0) + countDelim ls := by
      simp [countDelim, List.countP_cons]
      cases h : pyStartsWith delim60 (pyStrip l) <;> simp [h] <;> omega
    have hcap := processLine_capture ctx l
    simp only [read_process_output, jsonTexts_append, List.length_append]
    rw [ih, processLine_jsonTexts, hcd, hcap]
    cases h : pyStartsWith delim60 (pyStrip l) <;>
      cases hc : ctx.json_capture <;> simp [h, hc] <;> omega

/-- C3: over any finite raw line sequence from the initial parse context,
the number of `JsonBlock` emissions (`update_transcription_output`
registrations) equals the number of delimiter lines divided by two
(complete pairs only — a final unmatched opening delimiter emits
nothing); and on any closing delimiter the emitted text is exactly the
captured lines joined with single newlines, after which the capture
buffer is empty and capture mode is off. -/
theorem c3_jsonblock_pairs :
    (∀ lines : List String,
      (jsonTexts (read_process_output ⟨false, []⟩ lines).2).length =
        countDelim lines / 2) ∧
    (∀ (ctx : ReadCtx) (line : String), ctx.json_capture = true →
      pyStartsWith delim60 (pyStrip line) = true →
      (processLine ctx line).1 = ⟨false, []⟩ ∧
      jsonTexts (processLine ctx line).2 = [pyJoinNl ctx.json_lines]) := by
  constructor
  · intro lines
    simpa using read_process_output_count lines ⟨false, []⟩
  · intro ctx line h1 h2
    constructor
    · unfold processLine captureStep
      simp [h1, h2]
    · rw [processLine_jsonTexts]
      simp [h1, h2]

/-- C3 witness: the count at the concrete sequence `[delim, "x", delim]`
(one complete pair, one block), plus the flush behaviour when closing a
capture whose buffer holds `["x"]`. -/
theorem c3_witness :
    (jsonTexts (read_process_output ⟨false, []⟩ [delim60, "x", delim60]).2).length =
      countDelim [delim60, "x", delim60] / 2 ∧
    ((processLine ⟨true, ["x"]⟩ delim60).1 = ⟨false, []⟩ ∧
     jsonTexts (processLine ⟨true, ["x"]⟩ delim60).2 = [pyJoinNl ["x"]]) :=
  ⟨c3_jsonblock_pairs.1 [delim60, "x", delim60],
   c3_jsonblock_pairs.2 ⟨true, ["x"]⟩ delim60 rfl (by decide)⟩

/-! ## Claim C4 -/

theorem splitNlL_ne_nil (l : List Char) : splitNlL l ≠ [] := by
  cases l with
  | nil => simp [splitNlL]
  | cons c cs =>
    unfold splitNlL
    split
    · simp
    · split <;> simp

theorem splitNlL_no_newline : ∀ (l : List Char), ∀ x ∈ splitNlL l, '\n' ∉ x := by
  intro l
  induction l with
  | nil =>
    intro x hx
    simp [splitNlL] at hx
    subst hx
    simp
  | cons c cs ih =>
    intro x hx
    by_cases h : c = '\n'
    · subst h
      simp only [splitNlL, beq_self_eq_true, if_true, List.mem_cons] at hx
      rcases hx with rfl | hx
      · simp
      · exact ih x hx
    · rw [splitNlL, if_neg (by simp [h])] at hx
      cases hr : splitNlL cs with
      | nil => exact absurd hr (splitNlL_ne_nil cs)
      | cons y ys =>
        rw [hr] at hx
        rcases List.mem_cons.mp hx with rfl | hx
        · intro hmem
          rcases List.mem_cons.mp hmem with h' | h'
          · exact h h'.symm
          · exact ih y (hr ▸ List.mem_cons_self y ys) h'
        · exact ih x (hr ▸ List.mem_cons_of_mem y hx)

theorem splitNlL_of_no_newline : ∀ (y : List Char), '\n' ∉ y → splitNlL y = [y] := by
  intro y
  induction y with
  | nil => intro _; rfl
  | cons c t ih =>
    intro h
    have hc : ¬(c = '\n') := fun he => h (he ▸ List.mem_cons_self c t)
    have ht : '\n' ∉ t := fun hm => h (List.mem_cons_of_mem c hm)
    rw [splitNlL, if_neg (by simp [hc]), ih ht]

theorem splitNlL_append_newline : ∀ (y z : List Char), '\n' ∉ y →
    splitNlL (y ++ '\n' :: z) = y :: splitNlL z := by
  intro y z
  induction y with
  | nil => intro _; simp [splitNlL]
  | cons c t ih =>
    intro h
    have hc : ¬(c = '\n') := fun he => h (he ▸ List.mem_cons_self c t)
    have ht : '\n' ∉ t := fun hm => h (List.mem_cons_of_mem c hm)
    rw [List.cons_append, splitNlL, if_neg (by simp [hc]), ih ht]

theorem splitNlL_joinNlL : ∀ (ys : List (List Char)), ys ≠ [] →
    (∀ y ∈ ys, '\n' ∉ y) → splitNlL (joinNlL ys) = ys := by
  intro ys
  induction ys with
  | nil => intro h; exact absurd rfl h
  | cons y t ih =>
    intro _ hnn
    cases t with
    | nil =>
      exact splitNlL_of_no_newline y (hnn y (List.mem_cons_self y []))
    | cons y2 t2 =>
      rw [joinNlL, splitNlL_append_newline y _ (hnn y (List.mem_cons_self _ _)),
          ih (by simp) (fun z hz => hnn z (List.mem_cons_of_mem y hz))]

/-- C4 (counterexample): after appending 100 lines `a` through
`add_to_log` starting from the empty log, the log is *not* the most
recent 100 appended lines — the trailing-newline segment makes the trim
keep only 99 lines: the result equals 99 newline-terminated copies of
`a`, and differs from the 100 most recent lines whether their text is
newline-terminated or newline-separated. -/
theorem c4_counterexample :
    List.foldl add_to_log "" (List.replicate 100 "a") =
      String.join (List.replicate 99 "a\n") ∧
    List.foldl add_to_log "" (List.replicate 100 "a") ≠
      String.join (List.replicate 100 "a\n") ∧
    List.foldl add_to_log "" (List.replicate 100 "a") ≠
      String.intercalate "\n" (List.replicate 100 "a") := by
  set_option maxRecDepth 16384 in decide

/-- C4 (amended): each `add_to_log` call leaves the log with at most 100
newline-separated segments — because the log always ends with a newline
this is at most 99 complete lines plus one trailing empty segment, i.e.
the 99 most recent lines, not 100 — and the retained segments are exactly
the most recent ones of the freshly appended log, in order.  (Operations
that append to `process_log` directly — `process_ended`, the load, the
transcribe and the stop operators — perform no trimming of their own.) -/
theorem add_to_log_data (log line : String) :
    (add_to_log log line).data =
      if (splitNlL (log.data ++ line.data ++ ['\n'])).length > 100
      then joinNlL ((splitNlL (log.data ++ line.data ++ ['\n'])).drop
        ((splitNlL (log.data ++ line.data ++ ['\n'])).length - 100))
      else log.data ++ line.data ++ ['\n'] := by
  simp only [add_to_log]
  split <;> rfl

theorem c4_log_trim (log line : String) :
    (splitNlL (add_to_log log line).data).length ≤ 100 ∧
    splitNlL (add_to_log log line).data =
      (splitNlL (log.data ++ line.data ++ ['\n'])).drop
        ((splitNlL (log.data ++ line.data ++ ['\n'])).length - 100) := by
  rw [add_to_log_data]
  by_cases h : (splitNlL (log.data ++ line.data ++ ['\n'])).length > 100
  · rw [if_pos h]
    set xs := splitNlL (log.data ++ line.data ++ ['\n']) with hxs
    have hlen : (xs.drop (xs.length - 100)).length = 100 := by
      rw [List.length_drop]; omega
    have hne : xs.drop (xs.length - 100) ≠ [] := by
      intro he
      rw [he] at hlen
      simp at hlen
    have hnn : ∀ y ∈ xs.drop (xs.length - 100), '\n' ∉ y := fun y hy =>
      splitNlL_no_newline _ y (hxs ▸ List.mem_of_mem_drop hy)
    rw [splitNlL_joinNlL _ hne hnn]
    exact ⟨le_of_eq hlen, rfl⟩
  · rw [if_neg h]
    refine ⟨by omega, ?_⟩
    rw [Nat.sub_eq_zero_of_le (by omega), List.drop_zero]

/-! ## Claim C5 -/

/-- C5 (counterexample): completing a delimiter-enclosed block whose text
`not json` is not valid JSON does *not* leave the session in
`STATE_PROCESSING`: the raw text is stored in `transcription_output` and
the UI state becomes `STATE_TRANSCRIBED` (with status "Transcription
complete"), with no parse attempted at completion time. -/
theorem c5_counterexample :
    jsonAccepts "not json" = false ∧
    (applyUpdates { initialProps with ui_state := STATE_PROCESSING, process_running := true }
        (read_process_output ⟨false, []⟩ [delim60, "not json", delim60]).2).ui_state
      = STATE_TRANSCRIBED ∧
    (applyUpdates { initialProps with ui_state := STATE_PROCESSING, process_running := true }
        (read_process_output ⟨false, []⟩ [delim60, "not json", delim60]).2).transcription_output
      = "not json" ∧
    STATE_TRANSCRIBED ≠ STATE_PROCESSING := by
  decide

/-- C5 (amended): a completed JSON block is surfaced unconditionally —
on the closing delimiter the captured text is stored in
`transcription_output`, the UI state becomes `STATE_TRANSCRIBED` and the
status becomes "Transcription complete", whether or not the text is valid
JSON (validity is only examined later by the consumer of the stored
text); no other field changes, so the session is not terminated by a
malformed block. -/
theorem c5_block_surfaced_unconditionally (p : WhisperXProperties)
    (ctx : ReadCtx) (h : ctx.json_capture = true) :
    applyUpdates p (processLine ctx delim60).2 =
      { p with transcription_output := pyJoinNl ctx.json_lines
               ui_state := STATE_TRANSCRIBED
               status_message := "Transcription complete" } ∧
    (processLine ctx delim60).1 = ⟨false, []⟩ := by
  have hs : pyStrip delim60 = delim60 := by decide
  have hd : pyStartsWith delim60 delim60 = true := by decide
  have hm : modelUpdates delim60 = [] := by decide
  have hst : statusUpdates delim60 = [] := by decide
  constructor
  · show applyUpdates p ((captureStep ctx (pyStrip delim60)).2 ++
      modelUpdates (pyStrip delim60) ++ statusUpdates (pyStrip delim60)) = _
    rw [hs, hm, hst, List.append_nil, List.append_nil]
    unfold captureStep
    rw [if_pos hd, if_pos h]
    rfl
  · show (captureStep ctx (pyStrip delim60)).1 = _
    rw [hs]
    unfold captureStep
    rw [if_pos hd, if_pos h]

/-- C5 witness: the amended theorem at the default property state with a
capture buffer holding the single line `a`. -/
theorem c5_witness :
    (⟨true, ["a"]⟩ : ReadCtx).json_capture = true ∧
    applyUpdates initialProps (processLine ⟨true, ["a"]⟩ delim60).2 =
      { initialProps with transcription_output := pyJoinNl ["a"]
                          ui_state := STATE_TRANSCRIBED
                          status_message := "Transcription complete" } ∧
    (processLine ⟨true, ["a"]⟩ delim60).1 = ⟨false, []⟩ :=
  ⟨rfl, (c5_block_surfaced_unconditionally initialProps ⟨true, ["a"]⟩ rfl).1,
    (c5_block_surfaced_unconditionally initialProps ⟨true, ["a"]⟩ rfl).2⟩

/-! ## Claim C10 -/

theorem pyStartsWith_head {pat s : String} {p : Char}
    (hp : pat.data.head? = some p) (h : pyStartsWith pat s = true) :
    s.data.head? = some p := by
  cases hd : pat.data with
  | nil => rw [hd] at hp; cases hp
  | cons a as =>
    cases he : s.data with
    | nil =>
      exfalso
      unfold pyStartsWith at h
      rw [hd, he] at h
      simp [headMatches] at h
    | cons b bs =>
      unfold pyStartsWith at h
      rw [hd, he] at h
      rw [hd] at hp
      simp only [List.head?, Option.some.injEq] at hp ⊢
      exact (headMatches_head h) ▸ hp

/-- C10: `parse_command` is a total function of the input string (the
embedding is a Lean function, so it can neither diverge nor raise), and
for every input: it returns `(exit, [])` exactly when the stripped input
is `exit()`; `(list-models, [])` exactly when it is `list-models()`;
`(load-model, [arg])` with `arg` the stripped interior whenever the
stripped input starts with `load-model(` and ends with `)`;
`(transcribe-audio, [arg])` analogously; and `(None, [])` in every other
case. -/
theorem c10_parse_command_total (s : String) :
    (parse_command s = (some "exit", []) ↔ pyStrip s = "exit()") ∧
    (parse_command s = (some "list-models", []) ↔ pyStrip s = "list-models()") ∧
    (pyStartsWith "load-model(" (pyStrip s) = true ∧
        pyEndsWith ")" (pyStrip s) = true →
      parse_command s = (some "load-model", [pyStrip (pyInterior 11 (pyStrip s))])) ∧
    (pyStartsWith "transcribe-audio(" (pyStrip s) = true ∧
        pyEndsWith ")" (pyStrip s) = true →
      parse_command s = (some "transcribe-audio", [pyStrip (pyInterior 17 (pyStrip s))])) ∧
    (pyStrip s ≠ "exit()" → pyStrip s ≠ "list-models()" →
      ¬(pyStartsWith "load-model(" (pyStrip s) = true ∧
        pyEndsWith ")" (pyStrip s) = true) →
      ¬(pyStartsWith "transcribe-audio(" (pyStrip s) = true ∧
        pyEndsWith ")" (pyStrip s) = true) →
      parse_command s = (none, [])) := by
  by_cases h1 : pyStrip s = "exit()"
  · have g2 : pyStrip s ≠ "list-models()" := by rw [h1]; decide
    have g3 : pyStartsWith "load-model(" (pyStrip s) = false := by rw [h1]; decide
    have g4 : pyStartsWith "transcribe-audio(" (pyStrip s) = false := by
      rw [h1]; decide
    refine ⟨?_, ?_, ?_, ?_, ?_⟩
    · simp [parse_command, h1]
    · simp only [parse_command, if_pos h1]
      constructor
      · intro hx; exact absurd hx (by decide)
      · intro hx; exact absurd hx g2
    · intro hc; rw [g3] at hc; exact absurd hc.1 (by decide)
    · intro hc; rw [g4] at hc; exact absurd hc.1 (by decide)
    · intro hx; exact absurd h1 hx
  · by_cases h2 : pyStrip s = "list-models()"
    · have g3 : pyStartsWith "load-model(" (pyStrip s) = false := by
        rw [h2]; decide
      have g4 : pyStartsWith "transcribe-audio(" (pyStrip s) = false := by
        rw [h2]; decide
      refine ⟨?_, ?_, ?_, ?_, ?_⟩
      · simp only [parse_command, if_neg h1, if_pos h2]
        constructor
        · intro hx; exact absurd hx (by decide)
        · intro hx; exact absurd hx h1
      · simp [parse_command, h1, h2]
      · intro hc; rw [g3] at hc; exact absurd hc.1 (by decide)
      · intro hc; rw [g4] at hc; exact absurd hc.1 (by decide)
      · intro _ hx; exact absurd h2 hx
    · by_cases h3 : pyStartsWith "load-model(" (pyStrip s) = true ∧
          pyEndsWith ")" (pyStrip s) = true
      · have g4 : pyStartsWith "transcribe-audio(" (pyStrip s) = false := by
          cases hq : pyStartsWith "transcribe-audio(" (pyStrip s) with
          | false => rfl
          | true =>
            exfalso
            have ha := pyStartsWith_head (p := 'l') (by decide) h3.1
            have hb := pyStartsWith_head (p := 't') (by decide) hq
            rw [ha] at hb
            cases hb
        refine ⟨?_, ?_, ?_, ?_, ?_⟩
        · simp only [parse_command, if_neg h1, if_neg h2, if_pos h3]
          constructor
          · intro hx; have h5 := congrArg Prod.fst hx; simp at h5
          · intro hx; exact absurd hx h1
        · simp only [parse_command, if_neg h1, if_neg h2, if_pos h3]
          constructor
          · intro hx; have h5 := congrArg Prod.fst hx; simp at h5
          · intro hx; exact absurd hx h2
        · intro _; simp only [parse_command, if_neg h1, if_neg h2, if_pos h3]
        · intro hc; rw [g4] at hc; exact absurd hc.1 (by decide)
        · intro _ _ hx; exact absurd h3 hx
      · by_cases h4 : pyStartsWith "transcribe-audio(" (pyStrip s) = true ∧
            pyEndsWith ")" (pyStrip s) = true
        · refine ⟨?_, ?_, ?_, ?_, ?_⟩
          · simp only [parse_command, if_neg h1, if_neg h2, if_neg h3, if_pos h4]
            constructor
            · intro hx; have h5 := congrArg Prod.fst hx; simp at h5
            · intro hx; exact absurd hx h1
          · simp only [parse_command, if_neg h1, if_neg h2, if_neg h3, if_pos h4]
            constructor
            · intro hx; have h5 := congrArg Prod.fst hx; simp at h5
            · intro hx; exact absurd hx h2
          · intro hc; exact absurd hc h3
          · intro _
            simp only [parse_command, if_neg h1, if_neg h2, if_neg h3, if_pos h4]
          · intro _ _ _ hx; exact absurd h4 hx
        · refine ⟨?_, ?_, ?_, ?_, ?_⟩
          · simp only [parse_command, if_neg h1, if_neg h2, if_neg h3, if_neg h4]
            constructor
            · intro hx; exact absurd hx (by decide)
            · intro hx; exact absurd hx h1
          · simp only [parse_command, if_neg h1, if_neg h2, if_neg h3, if_neg h4]
            constructor
            · intro hx; exact absurd hx (by decide)
            · intro hx; exact absurd hx h2
          · intro hc; exact absurd hc h3
          · intro hc; exact absurd hc h4
          · intro _ _ _ _
            simp only [parse_command, if_neg h1, if_neg h2, if_neg h3, if_neg h4]

/-- C10 witness: the theorem applied at the concrete inputs
`load-model(tiny)` (prefix/suffix hypotheses discharged concretely) and,
through the other conjuncts, ` exit() `. -/
theorem c10_witness :
    pyStartsWith "load-model(" (pyStrip "load-model(tiny)") = true ∧
    pyEndsWith ")" (pyStrip "load-model(tiny)") = true ∧
    parse_command "load-model(tiny)" = (some "load-model", ["tiny"]) ∧
    parse_command " exit() " = (some "exit", []) := by
  refine ⟨by decide, by decide, ?_, ?_⟩
  · have h := (c10_parse_command_total "load-model(tiny)").2.2.1 ⟨by decide, by decide⟩
    rw [h]
    decide
  · exact (c10_parse_command_total " exit() ").1.mpr (by decide)

end WhisperXFlow
